import Mathlib

/-!
Verification of the request-forwarding engine and the port-negotiation /
dual-listener supervisor of a Rust reverse proxy (src/src/main.rs).

The HTTP-client and socket layers are modelled by explicit environments
(`UpstreamEnv`, `NetEnv`); everything the program itself computes
(URL construction, header filtering, error-to-status mapping, the port
scan, the upstream-URL rewrite, the bind/fallback control flow) is
embedded as executable Lean functions translated line by line from the
source.
-/

/-! ## ASCII / string primitives

Header-name comparisons in the source go through the `http` crate's
`PartialEq<str> for HeaderName`, which is `eq_ignore_ascii_case`;
`String::contains` and `String::replace` are the Rust standard library
substring primitives (leftmost, non-overlapping matches).
-/

/-- ASCII lowercasing of one character, as in `eq_ignore_ascii_case`. -/
def lowerChar (c : Char) : Char :=
  if 65 ≤ c.toNat && c.toNat ≤ 90 then Char.ofNat (c.toNat + 32) else c

/-- ASCII-lowercase every character of a string. -/
def lowerStr (s : String) : String := String.mk (s.data.map lowerChar)

/-- Case-insensitive header-name equality (`HeaderName == &str` in the
`http` crate is documented as a case-insensitive comparison). -/
def hdrNameEq (a b : String) : Bool := lowerStr a == lowerStr b

/-- `pat` is a leading segment of `s` (char lists). -/
def leadsWith : List Char → List Char → Bool
  | [], _ => true
  | _ :: _, [] => false
  | p :: ps, c :: cs => p == c && leadsWith ps cs

/-- Substring occurrence on char lists, mirroring Rust `str::contains`:
`pat` occurs starting at some position of `s`. -/
def containsSubL (pat : List Char) : List Char → Bool
  | [] => leadsWith pat []
  | c :: cs => leadsWith pat (c :: cs) || containsSubL pat cs

/-- Rust `s.contains(pat)` (substring containment). -/
def containsSub (s pat : String) : Bool := containsSubL pat.data s.data

/-- Replace every leftmost non-overlapping occurrence of `pat` by `rep`,
mirroring Rust `str::replace` for non-empty patterns (the source only
ever replaces decimal port strings, which are non-empty; for an empty
pattern Rust inserts `rep` at every boundary while this model is the
identity, but that case is unreachable here). -/
def replaceAuxL (pat rep : List Char) : Nat → List Char → List Char
  | _, [] => []
  | 0, s => s
  | fuel + 1, c :: cs =>
    if !pat.isEmpty && leadsWith pat (c :: cs) then
      rep ++ replaceAuxL pat rep fuel (List.drop (pat.length - 1) cs)
    else
      c :: replaceAuxL pat rep fuel cs

/-- The fuel (one unit per position examined, each step consuming at
least one character) is the input length, so the `0` fallback of
`replaceAuxL` is unreachable. -/
def replaceAllL (pat rep s : List Char) : List Char :=
  replaceAuxL pat rep s.length s

/-- Rust `s.replace(pat, rep)`. -/
def replaceStr (s pat rep : String) : String :=
  String.mk (replaceAllL pat.data rep.data s.data)

/-! ## Forwarding engine data model (`proxy_handler`, main.rs lines 43-116) -/

/-- An inbound HTTP request as seen by `proxy_handler`: method, the
optional path-and-query of the URI, the header list (a multimap in
iteration order) and the raw body bytes (`web::Bytes`). -/
structure InboundRequest where
  method : String
  pathAndQuery : Option String
  headers : List (String × String)
  body : List Nat
deriving DecidableEq

/-- The outbound request handed to the `reqwest` client: method, the
concatenated URL, the copied headers (reqwest `RequestBuilder::header`
appends, so this is a list) and the optional body. -/
structure OutboundRequest where
  method : String
  url : String
  headers : List (String × String)
  body : Option (List Nat)
deriving DecidableEq

/-- A response body: raw upstream bytes on success, or a formatted error
string (`format!` in the source) on failure paths. -/
inductive BodyVal where
  | bytes (b : List Nat)
  | text (s : String)
deriving DecidableEq

/-- The response `proxy_handler` returns to its client. -/
structure ProxyResponse where
  status : Nat
  headers : List (String × String)
  body : BodyVal
deriving DecidableEq

/-- Outcome of `reqwest::Client::builder().build()` (main.rs lines 58-65). -/
inductive ClientBuild where
  | ok
  | err (msg : String)
deriving DecidableEq

/-- Outcome of `request_builder.send().await` followed by
`response.bytes().await`: a transport-level failure, or an upstream
response whose body read may itself fail (main.rs lines 87-115). -/
inductive SendOutcome where
  | fail (msg : String)
  | ok (status : Nat) (headers : List (String × String))
       (bodyResult : Except String (List Nat))

/-- The external HTTP-client world a single `proxy_handler` call sees. -/
structure UpstreamEnv where
  clientBuild : ClientBuild
  send : OutboundRequest → SendOutcome

/-- Outbound header copy (main.rs lines 74-79): iterate the inbound
headers in order and append every header whose name is neither `host`
nor `content-length` (case-insensitive comparison via `HeaderName`). -/
def outboundHeaders (hs : List (String × String)) : List (String × String) :=
  hs.foldl
    (fun acc h =>
      if !hdrNameEq h.1 "host" && !hdrNameEq h.1 "content-length" then
        acc ++ [h]
      else acc) []

/-- Construction of the outbound request (main.rs lines 50-84): URL is
`upstream_url ++ path_and_query` (empty string when the URI has none),
headers are the filtered copy, and the body is attached only when the
inbound body is non-empty. -/
def mkOutbound (upstream_url : String) (req : InboundRequest) : OutboundRequest :=
  { method := req.method
  , url := upstream_url ++ req.pathAndQuery.getD ""
  , headers := outboundHeaders req.headers
  , body := if req.body.isEmpty then none else some req.body }

/-- actix `HttpResponseBuilder::insert_header` on the underlying
`HeaderMap::insert`: if an equivalent name is present its value is
replaced in place, otherwise the pair is appended. States reachable
from the empty map hold at most one entry per name. -/
def insert_header (acc : List (String × String)) (n v : String) :
    List (String × String) :=
  if acc.any (fun h => hdrNameEq h.1 n) then
    acc.map (fun h => if hdrNameEq h.1 n then (h.1, v) else h)
  else acc ++ [(n, v)]

/-- Client-visible response headers (main.rs lines 92-97): iterate the
upstream response headers, skip `transfer-encoding`, and `insert_header`
each remaining pair. -/
def buildClientHeaders (hs : List (String × String)) : List (String × String) :=
  hs.foldl
    (fun acc h =>
      if hdrNameEq h.1 "transfer-encoding" then acc
      else insert_header acc h.1 h.2) []

/-- The reverse-proxy handler (main.rs lines 43-116). `appData` is the
shared upstream URL (`web::Data<String>`, defaulting to
`http://127.0.0.1:3000` when absent). Every failure path returns a
response (500/502) rather than propagating, so the listener keeps
serving; this is why the function is total. -/
def proxy_handler (env : UpstreamEnv) (appData : Option String)
    (req : InboundRequest) : ProxyResponse :=
  let upstream_url := appData.getD "http://127.0.0.1:3000"
  match env.clientBuild with
  | ClientBuild.err e =>
      ⟨500, [], BodyVal.text ("Failed to create HTTP client: " ++ e)⟩
  | ClientBuild.ok =>
      match env.send (mkOutbound upstream_url req) with
      | SendOutcome.fail e =>
          ⟨502, [], BodyVal.text ("Failed to send request to upstream server: " ++ e)⟩
      | SendOutcome.ok st hs bodyRes =>
          match bodyRes with
          | Except.ok bs => ⟨st, buildClientHeaders hs, BodyVal.bytes bs⟩
          | Except.error e =>
              ⟨500, [], BodyVal.text ("Failed to get response body: " ++ e)⟩

/-! ## Helper lemmas on the header folds -/

/-- A conditional-append fold from any accumulator is the accumulator
followed by the filtered list. -/
theorem foldl_append_filter {α : Type} (p : α → Bool) :
    ∀ (xs acc : List α),
      List.foldl (fun a x => if p x then a ++ [x] else a) acc xs
        = acc ++ xs.filter p := by
  intro xs
  induction xs with
  | nil => intro acc; simp
  | cons x t ih =>
      intro acc
      by_cases hp : p x
      · simp [hp, ih, List.filter_cons]
      · simp [hp, ih, List.filter_cons]

theorem lowerStr_eval (s : String) : lowerStr s = String.mk (s.data.map lowerChar) := rfl

/-- On a list whose names are pairwise distinct (case-insensitively) and
disjoint from the accumulator, the `insert_header` fold only appends,
yielding the accumulator followed by the non-`transfer-encoding`
entries. -/
theorem buildClientHeaders_aux :
    ∀ (hs acc : List (String × String)),
      (∀ h, h ∈ hs → ∀ a, a ∈ acc → hdrNameEq a.1 h.1 = false) →
      List.Pairwise (fun a b => hdrNameEq a.1 b.1 = false) hs →
      List.foldl
        (fun acc h =>
          if hdrNameEq h.1 "transfer-encoding" then acc
          else insert_header acc h.1 h.2) acc hs
        = acc ++ hs.filter (fun h => !hdrNameEq h.1 "transfer-encoding") := by
  intro hs
  induction hs with
  | nil => intro acc _ _; simp
  | cons h t ih =>
      intro acc hdisj hpw
      have hht := (List.pairwise_cons.mp hpw).1
      have hpt := (List.pairwise_cons.mp hpw).2
      by_cases hte : hdrNameEq h.1 "transfer-encoding" = true
      · have hdisj2 : ∀ g, g ∈ t → ∀ a, a ∈ acc → hdrNameEq a.1 g.1 = false := by
          intro g hg a ha
          exact hdisj g (List.mem_cons_of_mem h hg) a ha
        simp [List.foldl_cons, hte, ih acc hdisj2 hpt, List.filter_cons]
      · have hnone : acc.any (fun a => hdrNameEq a.1 h.1) = false := by
          rw [List.any_eq_false]
          intro a ha
          simp [hdisj h (List.mem_cons_self h t) a ha]
        have hins : insert_header acc h.1 h.2 = acc ++ [h] := by
          simp [insert_header, hnone]
        have hdisj3 : ∀ g, g ∈ t → ∀ a, a ∈ acc ++ [h] → hdrNameEq a.1 g.1 = false := by
          intro g hg a ha
          rcases List.mem_append.mp ha with hacc | hsingle
          · exact hdisj g (List.mem_cons_of_mem h hg) a hacc
          · have : a = h := by simpa using hsingle
            subst this
            exact hht g hg
        have hte2 : hdrNameEq h.1 "transfer-encoding" = false := by
          simpa using hte
        simp [List.foldl_cons, hte2, hins, ih (acc ++ [h]) hdisj3 hpt,
          List.filter_cons, List.append_assoc]

/-! ## Port allocator (`is_port_available`, `find_available_port`,
main.rs lines 118-134) -/

/-- The two probe addresses used by `is_port_available`:
`127.0.0.1` and `0.0.0.0`. -/
inductive Addr where
  | loopback
  | wildcard
deriving DecidableEq

/-- Outcome of `HttpServer::bind(("0.0.0.0", port))`. -/
inductive BindResult where
  | ok
  | err (msg : String)
deriving DecidableEq

/-- The socket layer as the program observes it: whether a raw
`TcpListener::bind` probe on a given address/port succeeds, and the
outcome of binding an actix `HttpServer` to a port on `0.0.0.0`. -/
structure NetEnv where
  canBind : Addr → Nat → Bool
  serverBind : Nat → BindResult

/-- Listeners currently held by the process (probe sockets not yet
dropped). -/
abbrev Listeners := List (Addr × Nat)

/-- `TcpListener::bind(SocketAddr::from((addr, port)))`: on success a
listener is acquired (pushed on the held-listener state). -/
def tcp_bind (env : NetEnv) (s : Listeners) (a : Addr) (p : Nat) :
    Option (Addr × Nat) × Listeners :=
  if env.canBind a p then (some (a, p), (a, p) :: s) else (none, s)

/-- Dropping a `TcpListener` releases it. -/
def drop_listener (s : Listeners) (l : Addr × Nat) : Listeners := s.erase l

/-- `is_port_available` (main.rs lines 119-122): bind `127.0.0.1:port`
and, short-circuiting on failure, `0.0.0.0:port`; both `Result`
temporaries are dropped at the end of the expression (in reverse
creation order), so any acquired probe listener is released before the
function returns. -/
def is_port_available (env : NetEnv) (s : Listeners) (p : Nat) :
    Bool × Listeners :=
  match tcp_bind env s Addr.loopback p with
  | (none, s1) => (false, s1)
  | (some l1, s1) =>
    match tcp_bind env s1 Addr.wildcard p with
    | (none, s2) => (false, drop_listener s2 l1)
    | (some l2, s2) => (true, drop_listener (drop_listener s2 l2) l1)

/-- The boolean the caller of `is_port_available` sees (the state
component is invariant, proved below). -/
def isPortAvailableB (env : NetEnv) (p : Nat) : Bool :=
  (is_port_available env [] p).1

/-- `u16::saturating_add`, capping at `u16::MAX = 65535`. -/
def saturating_add (a b : Nat) : Nat := min (a + b) 65535

/-- Unchecked `u16` addition as compiled in release mode: wraps modulo
`2^16` (used for the `port + 1` fallback start, main.rs lines 156/203). -/
def u16_add (a b : Nat) : Nat := (a + b) % 65536

/-- The scan loop of `find_available_port`: probe `port`, `port+1`, ...
for `fuel` steps, returning the first port whose probe succeeds. -/
def findFrom (avail : Nat → Bool) : Nat → Nat → Option Nat
  | _, 0 => none
  | port, fuel + 1 =>
      if avail port then some port else findFrom avail (port + 1) fuel

/-- `find_available_port` (main.rs lines 125-134):
`for port in start_port..start_port.saturating_add(1000)` — a
half-open range, so the number of probed ports is
`saturating_add start_port 1000 - start_port`. -/
def find_available_port (avail : Nat → Bool) (start_port : Nat) : Option Nat :=
  findFrom avail start_port (saturating_add start_port 1000 - start_port)

/-- Any port the scan returns was probed available, and lies in the
half-open scanned range. -/
theorem findFrom_sound (avail : Nat → Bool) :
    ∀ (fuel port q : Nat), findFrom avail port fuel = some q →
      avail q = true ∧ port ≤ q ∧ q < port + fuel := by
  intro fuel
  induction fuel with
  | zero => intro port q h; simp [findFrom] at h
  | succ n ih =>
      intro port q h
      rw [findFrom] at h
      by_cases ha : avail port = true
      · rw [if_pos ha] at h
        have hq : port = q := by simpa using h
        subst hq
        exact ⟨ha, Nat.le_refl _, by omega⟩
      · rw [if_neg ha] at h
        have h2 := ih (port + 1) q h
        exact ⟨h2.1, by omega, by omega⟩

/-- The scan returns the lowest available port: if the first `k` ports
are unavailable and the `k`-th offset is available within the fuel, the
result is exactly `port + k`. -/
theorem findFrom_first (avail : Nat → Bool) :
    ∀ (fuel k port : Nat),
      (∀ i, i < k → avail (port + i) = false) → avail (port + k) = true →
      k < fuel → findFrom avail port fuel = some (port + k) := by
  intro fuel
  induction fuel with
  | zero => intro k port _ _ hk; omega
  | succ n ih =>
      intro k port hocc hfree hk
      match k with
      | 0 =>
          have h0 : avail port = true := by simpa using hfree
          rw [findFrom, if_pos h0]
          simp
      | k + 1 =>
          have h0 : avail port = false := by
            have := hocc 0 (by omega)
            simpa using this
          rw [findFrom, if_neg (by simp [h0])]
          have hocc2 : ∀ i, i < k → avail (port + 1 + i) = false := by
            intro i hi
            have h2 := hocc (i + 1) (by omega)
            have e : port + (i + 1) = port + 1 + i := by omega
            rw [e] at h2
            exact h2
          have hfree2 : avail (port + 1 + k) = true := by
            have e : port + (k + 1) = port + 1 + k := by omega
            rw [e] at hfree
            exact hfree
          rw [ih k (port + 1) hocc2 hfree2 (by omega)]
          congr 1
          omega

/-- The scan never finds anything when every probe fails. -/
theorem findFrom_none (avail : Nat → Bool) (h : ∀ q, avail q = false) :
    ∀ (fuel port : Nat), findFrom avail port fuel = none := by
  intro fuel
  induction fuel with
  | zero => intro port; rfl
  | succ n ih => intro port; rw [findFrom, if_neg (by simp [h port]), ih]

/-! ## Origin service (`hello_world` and the route table of
`start_web_server`, main.rs lines 38-40 and 140-146) -/

/-- A response from the origin listener. -/
structure OriginResponse where
  status : Nat
  body : String
deriving DecidableEq

/-- `hello_world` (main.rs lines 38-40): `HttpResponse::Ok()` with the
fixed payload. -/
def hello_world : OriginResponse := ⟨200, "Hello, World!"⟩

/-- The origin listener's dispatch (main.rs lines 140-146): the app
registers exactly two routes, `/` and `/{tail:.*}`, both guarded by
`web::get()`. actix-web's `App::route` is
`Resource::new(path).add_guards(route.take_guards()).route(route)` —
the method guard is hoisted from the route to the resource — so a
resource matches only when both its path pattern and the GET guard
match; a request matching no resource (any non-GET method, since both
resources carry the GET guard) receives the app default
`404 Not Found`. -/
def originRespond (method : String) (path : String) : OriginResponse :=
  if path == "/" && method == "GET" then hello_world
  else if leadsWith "/".data path.data && method == "GET" then hello_world
  else ⟨404, ""⟩

/-! ## Listener supervisor (`start_web_server`, `start_proxy_server`,
`main`, main.rs lines 137-229 and 251-294) -/

/-- Shared front of both exhaustion messages. -/
def bindFailPre : String := "Failed to bind to port "

/-- Tail of the web-server exhaustion message. -/
def webFailPost : String :=
  " and could not find any alternative ports. Try manually specifying a different port with --web-port."

/-- Tail of the proxy-server exhaustion message. -/
def proxyFailPost : String :=
  " and could not find any alternative ports. Try manually specifying a different port with --proxy-port."

/-- The `io::Error` message built at main.rs lines 169-172. -/
def webExhaustMsg (port : Nat) : String :=
  bindFailPre ++ toString port ++ webFailPost

/-- The `io::Error` message built at main.rs lines 218-221. -/
def proxyExhaustMsg (port : Nat) : String :=
  bindFailPre ++ toString port ++ proxyFailPost

/-- `start_web_server` (main.rs lines 137-180): bind the requested
port; on failure with auto-port enabled, scan from `port + 1`
(unchecked u16 addition) and bind the first available port (`?`
propagates a failure of that second bind); on an exhausted scan return
the descriptive error; with auto-port disabled return the original
bind error unchanged. -/
def start_web_server (env : NetEnv) (port : Nat) (auto_port : Bool) :
    Except String Nat :=
  match env.serverBind port with
  | BindResult.ok => Except.ok port
  | BindResult.err e =>
      if auto_port then
        match find_available_port (isPortAvailableB env) (u16_add port 1) with
        | some alt_port =>
            match env.serverBind alt_port with
            | BindResult.ok => Except.ok alt_port
            | BindResult.err e2 => Except.error e2
        | none => Except.error (webExhaustMsg port)
      else Except.error e

/-- `start_proxy_server` (main.rs lines 183-229): identical bind and
fallback logic; `upstream` is wired into the handlers and does not
affect the binding outcome. -/
def start_proxy_server (env : NetEnv) (port : Nat) (upstream : String)
    (auto_port : Bool) : Except String Nat :=
  match env.serverBind port with
  | BindResult.ok => Except.ok port
  | BindResult.err e =>
      if auto_port then
        match find_available_port (isPortAvailableB env) (u16_add port 1) with
        | some alt_port =>
            match env.serverBind alt_port with
            | BindResult.ok => Except.ok alt_port
            | BindResult.err e2 => Except.error e2
        | none => Except.error (proxyExhaustMsg port)
      else Except.error e

/-- The upstream-URL rewrite in `main` (main.rs lines 275-279):
substitute the actual web port for the requested one exactly when the
bound port changed and the configured URL textually contains the
requested port's decimal string. -/
def resolveUpstreamUrl (web_port actual_web_port : Nat) (upstream : String) :
    String :=
  if actual_web_port != web_port && containsSub upstream (toString web_port) then
    replaceStr upstream (toString web_port) (toString actual_web_port)
  else upstream

/-- The parsed command-line configuration (main.rs lines 19-35). -/
structure Args where
  web_port : Nat
  proxy_port : Nat
  upstream : String
  no_auto_port : Bool

/-- The startup sequence of `main` (main.rs lines 251-294): start the
web server (the `?` propagates its error, giving a non-zero process
exit), resolve the upstream URL from the actual web port, start the
proxy (again `?`), and hand both actual ports plus the resolved
upstream URL to the running phase. -/
def main_startup (env : NetEnv) (args : Args) : Except String (Nat × Nat × String) :=
  let auto_port := !args.no_auto_port
  match start_web_server env args.web_port auto_port with
  | Except.error e => Except.error e
  | Except.ok actual_web_port =>
    let upstream_url := resolveUpstreamUrl args.web_port actual_web_port args.upstream
    match start_proxy_server env args.proxy_port upstream_url auto_port with
    | Except.error e => Except.error e
    | Except.ok actual_proxy_port =>
        Except.ok (actual_web_port, actual_proxy_port, upstream_url)

/-! ## Substring lemmas for the error-message claims -/

theorem leadsWith_append (pat r : List Char) :
    leadsWith pat (pat ++ r) = true := by
  induction pat with
  | nil => rfl
  | cons c cs ih => simp [leadsWith, ih]

theorem containsSubL_nil_pat (s : List Char) : containsSubL [] s = true := by
  induction s with
  | nil => rfl
  | cons c cs ih => simp [containsSubL, leadsWith]

/-- A string that is literally `l ++ pat ++ r` contains `pat`. -/
theorem containsSubL_sandwich (pat l r : List Char) :
    containsSubL pat (l ++ pat ++ r) = true := by
  induction l with
  | nil =>
      match pat with
      | [] => simpa using containsSubL_nil_pat r
      | c :: cs =>
          have h := leadsWith_append (c :: cs) r
          simp only [List.nil_append, List.cons_append, containsSubL, Bool.or_eq_true]
          exact Or.inl (by simpa using h)
  | cons a l2 ih =>
      simp only [List.cons_append, containsSubL, Bool.or_eq_true]
      exact Or.inr (by simpa [List.append_assoc] using ih)

/-- Containment is preserved by prepending arbitrary text. -/
theorem containsSubL_right (pat l m : List Char)
    (h : containsSubL pat m = true) : containsSubL pat (l ++ m) = true := by
  induction l with
  | nil => simpa using h
  | cons a l2 ih =>
      simp only [List.cons_append, containsSubL, Bool.or_eq_true]
      exact Or.inr ih

/-- Both exhaustion messages name the failing port. -/
theorem exhaustMsg_names_port (p : Nat) :
    containsSub (webExhaustMsg p) (toString p) = true
  ∧ containsSub (proxyExhaustMsg p) (toString p) = true := by
  constructor
  · show containsSubL (toString p).data
      ((bindFailPre.data ++ (toString p).data) ++ webFailPost.data) = true
    exact containsSubL_sandwich (toString p).data bindFailPre.data webFailPost.data
  · show containsSubL (toString p).data
      ((bindFailPre.data ++ (toString p).data) ++ proxyFailPost.data) = true
    exact containsSubL_sandwich (toString p).data bindFailPre.data proxyFailPost.data

/-- Both exhaustion messages suggest the matching manual override flag. -/
theorem exhaustMsg_names_flag (p : Nat) :
    containsSub (webExhaustMsg p) "--web-port" = true
  ∧ containsSub (proxyExhaustMsg p) "--proxy-port" = true := by
  constructor
  · show containsSubL ("--web-port").data
      ((bindFailPre.data ++ (toString p).data) ++ webFailPost.data) = true
    exact containsSubL_right _ _ _ (by decide)
  · show containsSubL ("--proxy-port").data
      ((bindFailPre.data ++ (toString p).data) ++ proxyFailPost.data) = true
    exact containsSubL_right _ _ _ (by decide)

/-! ## Claims -/

/-- C1 counterexample: an upstream response with two headers of the same
name (e.g. two `Set-Cookie` cookies) is not relayed verbatim — the
`insert_header` loop replaces, so the client sees only the second value,
not "exactly the upstream response headers whose names are not
Transfer-Encoding". -/
theorem c1_counterexample :
    (proxy_handler ⟨ClientBuild.ok,
        fun _ => SendOutcome.ok 200 [("set-cookie", "a"), ("set-cookie", "b")]
          (Except.ok [])⟩
      none ⟨"GET", none, [], []⟩).headers
    ≠ List.filter (fun h => !hdrNameEq h.1 "transfer-encoding")
        [("set-cookie", "a"), ("set-cookie", "b")] := by decide

/-- C1 (amended): the outbound request carries exactly the inbound
headers whose names are not (case-insensitively) `Host` or
`Content-Length`; on upstream success the client response carries the
upstream status verbatim, the upstream body unchanged, and the
upstream headers folded through `insert_header` with
`transfer-encoding` skipped — which equals "exactly the non
Transfer-Encoding upstream headers" whenever upstream header names are
pairwise distinct (case-insensitively), duplicates otherwise collapsing
to the last value. -/
theorem c1_header_forwarding (appData : Option String) (req : InboundRequest)
    (st : Nat) (hs : List (String × String)) (bs : List Nat) :
    (mkOutbound (appData.getD "http://127.0.0.1:3000") req).headers
        = req.headers.filter
            (fun h => !hdrNameEq h.1 "host" && !hdrNameEq h.1 "content-length")
  ∧ proxy_handler ⟨ClientBuild.ok, fun _ => SendOutcome.ok st hs (Except.ok bs)⟩
        appData req
      = ⟨st, buildClientHeaders hs, BodyVal.bytes bs⟩
  ∧ (List.Pairwise (fun a b => hdrNameEq a.1 b.1 = false) hs →
        buildClientHeaders hs
          = hs.filter (fun h => !hdrNameEq h.1 "transfer-encoding")) := by
  refine ⟨?_, rfl, ?_⟩
  · have h := foldl_append_filter
      (fun h : String × String => !hdrNameEq h.1 "host" && !hdrNameEq h.1 "content-length")
      req.headers []
    simpa [mkOutbound, outboundHeaders] using h
  · intro hpw
    have h := buildClientHeaders_aux hs [] (by intro g hg a ha; simp at ha) hpw
    simpa [buildClientHeaders] using h

/-- C1 witness: on a duplicate-free upstream header list the client
response headers are exactly the non-Transfer-Encoding upstream
headers. -/
theorem c1_header_forwarding_witness :
    buildClientHeaders [("content-type", "text/plain"), ("x-a", "1")]
      = List.filter (fun h => !hdrNameEq h.1 "transfer-encoding")
          [("content-type", "text/plain"), ("x-a", "1")] :=
  (c1_header_forwarding none ⟨"GET", none, [], []⟩ 200
    [("content-type", "text/plain"), ("x-a", "1")] []).2.2 (by decide)

/-- C2: a client-construction failure maps to 500, a transport-level
send failure maps to 502, and a body-read failure maps to 500, each
carrying a description of the underlying failure; all three paths
return a response (the handler is total), so the listener keeps
serving. -/
theorem c2_error_mapping (appData : Option String) (req : InboundRequest)
    (sendF : OutboundRequest → SendOutcome) (eClient eSend eBody : String)
    (st : Nat) (hs : List (String × String)) :
    proxy_handler ⟨ClientBuild.err eClient, sendF⟩ appData req
        = ⟨500, [], BodyVal.text ("Failed to create HTTP client: " ++ eClient)⟩
  ∧ proxy_handler ⟨ClientBuild.ok, fun _ => SendOutcome.fail eSend⟩ appData req
        = ⟨502, [], BodyVal.text ("Failed to send request to upstream server: " ++ eSend)⟩
  ∧ proxy_handler ⟨ClientBuild.ok, fun _ => SendOutcome.ok st hs (Except.error eBody)⟩
        appData req
      = ⟨500, [], BodyVal.text ("Failed to get response body: " ++ eBody)⟩ :=
  ⟨rfl, rfl, rfl⟩

/-- C3 counterexample: a POST to the origin is not answered with the
fixed 200 payload — only GET routes are registered. -/
theorem c3_counterexample :
    (originRespond "POST" "/").status ≠ 200
  ∧ originRespond "POST" "/" ≠ hello_world := by decide

/-- C3 (amended): for every path, a GET to the origin returns 200 with
the fixed payload; any other method matches neither GET-guarded
resource and receives the app default 404 Not Found. -/
theorem c3_origin_get_only (method path : String)
    (h : leadsWith "/".data path.data = true) :
    originRespond "GET" path = ⟨200, "Hello, World!"⟩
  ∧ (method ≠ "GET" → (originRespond method path).status = 404) := by
  constructor
  · by_cases hp : path = "/"
    · simp [originRespond, hp, hello_world]
    · have hp2 : (path == "/") = false := by simp [hp]
      simp [originRespond, hp2, h, hello_world]
  · intro hm
    have hm2 : (method == "GET") = false := by simp [hm]
    simp [originRespond, hm2]

/-- C3 witness at path `/abc` and method `POST`. -/
theorem c3_origin_get_only_witness :
    originRespond "GET" "/abc" = ⟨200, "Hello, World!"⟩
  ∧ (originRespond "POST" "/abc").status = 404 :=
  ⟨(c3_origin_get_only "POST" "/abc" (by decide)).1,
   (c3_origin_get_only "POST" "/abc" (by decide)).2 (by decide)⟩

/-- C4: the resolved upstream URL replaces every occurrence of the
requested web port's decimal string by the actual port's exactly when
the bound port changed and the configured URL contains the requested
port string; otherwise it is unchanged; in particular the 3000→3005
example of the spec, and a two-occurrence URL showing that every
occurrence is replaced. -/
theorem c4_upstream_rewrite (web_port actual : Nat) (up : String) :
    (actual ≠ web_port → containsSub up (toString web_port) = true →
        resolveUpstreamUrl web_port actual up
          = replaceStr up (toString web_port) (toString actual))
  ∧ (actual = web_port → resolveUpstreamUrl web_port actual up = up)
  ∧ (containsSub up (toString web_port) = false →
        resolveUpstreamUrl web_port actual up = up)
  ∧ resolveUpstreamUrl 3000 3005 "http://127.0.0.1:3000" = "http://127.0.0.1:3005"
  ∧ resolveUpstreamUrl 3000 3005 "http://127.0.0.1:3000/a3000b"
      = "http://127.0.0.1:3005/a3005b" := by
  refine ⟨?_, ?_, ?_, by decide, by decide⟩
  · intro h1 h2
    have hb : (actual != web_port) = true := by simp [bne_iff_ne, h1]
    simp [resolveUpstreamUrl, hb, h2]
  · intro h
    subst h
    simp [resolveUpstreamUrl]
  · intro h
    simp [resolveUpstreamUrl, h]

/-- C4 witness: each branch of the rewrite at concrete inputs. -/
theorem c4_upstream_rewrite_witness :
    resolveUpstreamUrl 1 2 "x1" = replaceStr "x1" "1" "2"
  ∧ resolveUpstreamUrl 1 1 "x1" = "x1"
  ∧ resolveUpstreamUrl 1 2 "zz" = "zz" :=
  ⟨(c4_upstream_rewrite 1 2 "x1").1 (by decide) (by decide),
   (c4_upstream_rewrite 1 1 "x1").2.1 rfl,
   (c4_upstream_rewrite 1 2 "zz").2.2.1 (by decide)⟩

/-- C5 counterexample: at start port 65535 with every port available
the scan probes nothing (the half-open range
`65535..saturating_add 65535 1000` is empty) and returns none, not the
available port 65535 the claimed window contains. -/
theorem c5_counterexample :
    find_available_port (fun _ => true) 65535 = none
  ∧ find_available_port (fun _ => true) 65535 ≠ some 65535 := by decide

/-- C5 (amended): the scan probes `p, p+1, ...` strictly below
`saturating_add p 1000` (so port 65535 is never probed and at
`p = 65535` the scan is empty); any returned port was available and
lies in that range, and if the first `k` offsets are unavailable while
`p + k` is available inside the range, the result is exactly `p + k`. -/
theorem c5_scan (avail : Nat → Bool) (p k q : Nat) :
    (find_available_port avail p = some q →
        avail q = true ∧ p ≤ q ∧ q < saturating_add p 1000)
  ∧ ((∀ i, i < k → avail (p + i) = false) → avail (p + k) = true →
        p + k < saturating_add p 1000 →
        find_available_port avail p = some (p + k)) := by
  constructor
  · intro h
    have h2 := findFrom_sound avail (saturating_add p 1000 - p) p q h
    refine ⟨h2.1, h2.2.1, ?_⟩
    have h3 := h2.2.2
    have h4 := h2.2.1
    simp [saturating_add] at h3 ⊢
    omega
  · intro h1 h2 h3
    have hk : k < saturating_add p 1000 - p := by
      simp [saturating_add] at h3 ⊢
      omega
    exact findFrom_first avail (saturating_add p 1000 - p) k p h1 h2 hk

/-- C5 witness: ports 3 and 4 occupied, 5 free — the scan returns 5. -/
theorem c5_scan_witness :
    find_available_port (fun q => q == 5) 3 = some 5 := by
  have h := (c5_scan (fun q => q == 5) 3 2 5).2 (by decide) (by decide) (by decide)
  simpa using h

/-- C6 counterexample: with fallback disabled, the supervisor returns
the operating system's original bind error unchanged — a description
that names neither the port nor a manual override flag. -/
theorem c6_counterexample :
    start_web_server
        ⟨fun _ _ => false, fun _ => BindResult.err "Address already in use (os error 98)"⟩
        3000 false
      = Except.error "Address already in use (os error 98)"
  ∧ containsSub "Address already in use (os error 98)" (toString 3000) = false
  ∧ containsSub "Address already in use (os error 98)" "--web-port" = false := by
  exact ⟨rfl, by decide, by decide⟩

/-- C6 (amended): when the requested port cannot be bound, the
supervisor returns an error without binding and `main` propagates it
(non-zero process exit). With fallback enabled and the scan exhausted
the error description names the port and suggests the matching manual
override flag (`--web-port` / `--proxy-port`); with fallback disabled
the original bind error is propagated unchanged, so its description
need not name the port or a flag. -/
theorem c6_bind_failure (env : NetEnv) (p : Nat) (e : String) (args : Args)
    (m : String) :
    (env.serverBind p = BindResult.err e →
      find_available_port (isPortAvailableB env) (u16_add p 1) = none →
        start_web_server env p true = Except.error (webExhaustMsg p)
      ∧ start_proxy_server env p args.upstream true = Except.error (proxyExhaustMsg p))
  ∧ containsSub (webExhaustMsg p) (toString p) = true
  ∧ containsSub (webExhaustMsg p) "--web-port" = true
  ∧ containsSub (proxyExhaustMsg p) (toString p) = true
  ∧ containsSub (proxyExhaustMsg p) "--proxy-port" = true
  ∧ (env.serverBind p = BindResult.err e →
      start_web_server env p false = Except.error e)
  ∧ (start_web_server env args.web_port (!args.no_auto_port) = Except.error m →
      main_startup env args = Except.error m) := by
  refine ⟨?_, (exhaustMsg_names_port p).1, (exhaustMsg_names_flag p).1,
    (exhaustMsg_names_port p).2, (exhaustMsg_names_flag p).2, ?_, ?_⟩
  · intro h1 h2
    constructor
    · simp [start_web_server, h1, h2]
    · simp [start_proxy_server, h1, h2]
  · intro h1
    simp [start_web_server, h1]
  · intro h1
    simp [main_startup, h1]

/-- A fully occupied network for the C6 witness. -/
def envOcc : NetEnv := ⟨fun _ _ => false, fun _ => BindResult.err "boom"⟩

/-- C6 witness: requested port 65533, everything occupied — exhausted
fallback yields the descriptive error, disabled fallback yields the raw
bind error, and `main` propagates the failure. -/
theorem c6_bind_failure_witness :
    start_web_server envOcc 65533 true = Except.error (webExhaustMsg 65533)
  ∧ start_web_server envOcc 65533 false = Except.error "boom"
  ∧ main_startup envOcc ⟨65533, 9, "u", false⟩ = Except.error (webExhaustMsg 65533) := by
  have h := c6_bind_failure envOcc 65533 "boom" ⟨65533, 9, "u", false⟩ (webExhaustMsg 65533)
  exact ⟨(h.1 rfl rfl).1, h.2.2.2.2.2.1 rfl, h.2.2.2.2.2.2 rfl⟩

/-- C7: the outbound URL is the byte-for-byte concatenation of the
upstream base URL and the inbound path-and-query, with the empty string
when the request has none. -/
theorem c7_outbound_url (upstream_url : String) (req : InboundRequest) :
    (mkOutbound upstream_url req).url = upstream_url ++ req.pathAndQuery.getD ""
  ∧ (mkOutbound upstream_url req).url.data
      = upstream_url.data ++ (req.pathAndQuery.getD "").data
  ∧ (req.pathAndQuery = none → (mkOutbound upstream_url req).url = upstream_url) := by
  refine ⟨rfl, rfl, ?_⟩
  intro h
  simp [mkOutbound, h]

/-- C7 witness: a request with no path-and-query is forwarded to the
bare upstream base URL. -/
theorem c7_outbound_url_witness :
    (mkOutbound "http://127.0.0.1:3000" ⟨"GET", none, [], []⟩).url
      = "http://127.0.0.1:3000" :=
  (c7_outbound_url "http://127.0.0.1:3000" ⟨"GET", none, [], []⟩).2.2 rfl

/-- C9: the outbound request has a body attached exactly when the
inbound body is non-empty, and the attached body is the inbound body
unchanged. -/
theorem c9_body_attach (upstream_url m : String) (pq : Option String)
    (hs : List (String × String)) (b : List Nat) :
    ((mkOutbound upstream_url ⟨m, pq, hs, b⟩).body.isSome = !b.isEmpty)
  ∧ (mkOutbound upstream_url ⟨m, pq, hs, []⟩).body = none
  ∧ (b ≠ [] → (mkOutbound upstream_url ⟨m, pq, hs, b⟩).body = some b) := by
  refine ⟨?_, rfl, ?_⟩
  · cases b <;> simp [mkOutbound]
  · intro h
    cases b with
    | nil => exact absurd rfl h
    | cons x xs => simp [mkOutbound]

/-- C9 witness: a one-byte body is attached unchanged. -/
theorem c9_body_attach_witness :
    (mkOutbound "u" ⟨"GET", none, [], [1]⟩).body = some [1] :=
  (c9_body_attach "u" "GET" none [] [1]).2.2 (by decide)

/-- An environment for the C10 witness: every probe succeeds, and the
`HttpServer` bind fails only on port 65535. -/
def envWrap : NetEnv :=
  ⟨fun _ _ => true, fun q => if q == 65535 then BindResult.err "x" else BindResult.ok⟩

/-- C10: the fallback scan starts at `port + 1` computed with unchecked
u16 addition: below 65535 that is the successor, but at requested port
65535 it wraps modulo 2^16 to 0, so the fallback scan starts at port 0
— concretely, when port 0 is available both supervisors fall back from
65535 all the way down to port 0. -/
theorem c10_fallback_wrap (p : Nat) (env : NetEnv) (e upstream : String) :
    (p < 65535 → u16_add p 1 = p + 1)
  ∧ u16_add 65535 1 = 0
  ∧ (env.serverBind 65535 = BindResult.err e → isPortAvailableB env 0 = true →
      env.serverBind 0 = BindResult.ok →
        start_web_server env 65535 true = Except.ok 0
      ∧ start_proxy_server env 65535 upstream true = Except.ok 0) := by
  refine ⟨?_, rfl, ?_⟩
  · intro h
    simp only [u16_add]
    omega
  · intro h1 h2 h3
    have hfind : find_available_port (isPortAvailableB env) (u16_add 65535 1)
        = some 0 := by
      have h0 : isPortAvailableB env (0 + 0) = true := by simpa using h2
      have h := findFrom_first (isPortAvailableB env) (saturating_add 0 1000 - 0) 0 0
        (fun i hi => absurd hi (Nat.not_lt_zero i)) h0 (by decide)
      simpa [find_available_port, u16_add] using h
    constructor
    · simp [start_web_server, h1, hfind, h3]
    · simp [start_proxy_server, h1, hfind, h3]

/-- C10 witness: below the top port the fallback start is the
successor; at 65535 the wrap makes the supervisor bind port 0. -/
theorem c10_fallback_wrap_witness :
    u16_add 7 1 = 8 ∧ start_web_server envWrap 65535 true = Except.ok 0 := by
  have h := c10_fallback_wrap 7 envWrap "x" "u"
  exact ⟨h.1 (by decide), (h.2.2 rfl rfl rfl).1⟩
